import Mathlib

/-!
Verification of the resilient acquisition-and-generation pipeline in
`news_digest.py` (repository `daily_stock_analysis`).

The Python script is shallowly embedded: every provider interaction is
represented by an explicit outcome value (a raised exception becomes a
distinguished constructor, a returned value becomes `some`/`ok`), and the
pure control flow of the script is translated function by function.
Strings are modelled by Lean `String`; Python slicing `s[:n]` is modelled
by taking the first `n` characters of the character list.
-/

namespace NewsDigest

/-- Per-query sufficiency threshold: `if not res_text or len(res_text) < 100`
(line 237 of `news_digest.py`). -/
def sufficiencyThreshold : Nat := 100

/-- Hard minimum for the combined corpus: `if len(raw_context) < 100`
(line 245 of `news_digest.py`). -/
def hardMinimum : Nat := 100

/-- Per-query truncation budget: `res_text[:3000]` (line 241). -/
def queryTruncBudget : Nat := 3000

/-- Python slicing `s[:n]`: the first `n` characters of the string. -/
def pyTruncate (s : String) (n : Nat) : String := String.mk (s.data.take n)

/-- One raw item of a DuckDuckGo response (line 151): a mapping with string
fields, a bare string, or any other object already rendered by `str(r)`. -/
inductive RawItem where
  | record (fields : List (String × String))
  | str (s : String)
  | other (repr : String)

/-- Python `dict.get(key, default)` on a field list. -/
def dictGet (fields : List (String × String)) (k : String) (default : String) : String :=
  match fields.lookup k with
  | some v => v
  | none => default

/-- Title extracted by normalization: `r.get('title', 'No Title')` for a
mapping (line 153); the other shapes carry no separate title. -/
def itemTitle : RawItem → String
  | .record fields => dictGet fields "title" "No Title"
  | .str _ => ""
  | .other _ => ""

/-- Body extracted by normalization: `r.get('body', r.get('snippet', ''))`
for a mapping (line 154); a bare string is its own body; any other shape is
its stringification (lines 156-157). -/
def itemBody : RawItem → String
  | .record fields => dictGet fields "body" (dictGet fields "snippet" "")
  | .str s => s
  | .other s => s

/-- The chunk appended to `text_res` for one response item (lines 151-157). -/
def normalizeItem (r : RawItem) : String :=
  match r with
  | .record fields =>
      "Source: " ++ dictGet fields "title" "No Title" ++ "\nContent: "
        ++ dictGet fields "body" (dictGet fields "snippet" "") ++ "\n---\n"
  | .str s => s ++ "\n---\n"
  | .other s => s ++ "\n---\n"

/-- Outcome of the DuckDuckGo call `DDGS().text(query, max_results=25)`:
an exception anywhere in the tier, a falsy result list, or a list of items. -/
inductive DdgOutcome where
  | failure
  | noResults
  | items (l : List RawItem)

/-- `fallback_search_ddg` (lines 141-161): any exception is caught and
yields `""`; a falsy result list yields `""`; otherwise the items are
normalized and concatenated. -/
def fallback_search_ddg : DdgOutcome → String
  | .failure => ""
  | .noResults => ""
  | .items l => l.foldl (fun acc r => acc ++ normalizeItem r) ""

/-- Outcome of one call to a candidate method of the search service:
a returned value (with its Python truthiness and its `str()` rendering),
a `TypeError`, or any other exception. -/
inductive CallRes where
  | ok (truthy : Bool) (s : String)
  | tyErr
  | exc

/-- Behaviour of one present, callable candidate method: the outcome of
`func(query)` and the outcome of the retry `func(query, 10)` (the retry is
consulted only when the first call raises `TypeError`). -/
structure MethodBehavior where
  first : CallRes
  second : CallRes

/-- Lines 175-185 for one candidate method: call `func(query)`; on
`TypeError` retry as `func(query, 10)`; any other exception is caught by the
outer handler; a truthy result is returned as `str(res)`, a falsy result
falls through to the next candidate.  The second component records the
calls actually made (`true` marks the retry carrying the extra limit hint). -/
def tryMethod (m : MethodBehavior) : Option String × List Bool :=
  match m.first with
  | .ok t s => (if t then some s else none, [false])
  | .exc => (none, [false])
  | .tyErr =>
      match m.second with
      | .ok t s => (if t then some s else none, [false, true])
      | .tyErr => (none, [false, true])
      | .exc => (none, [false, true])

/-- The ranked candidate method names of `smart_project_search` (line 169). -/
def possible_methods : List String :=
  ["search_with_gemini", "smart_search", "search_news", "search", "query", "fetch", "run"]

/-- The `for method in possible_methods` loop of `smart_project_search`
(lines 171-189): absent or non-callable names are skipped, the first
candidate producing a truthy result returns it, failures continue, and the
loop falls off the end with `None`.  The service is modelled as a map from
method name to the behaviour of that method when present and callable. -/
def searchLoop (svc : String → Option MethodBehavior) : List String → Option String
  | [] => none
  | m :: rest =>
      match svc m with
      | none => searchLoop svc rest
      | some beh =>
          match (tryMethod beh).1 with
          | some s => some s
          | none => searchLoop svc rest

/-- `smart_project_search` (lines 163-189). -/
def smart_project_search (svc : String → Option MethodBehavior) : Option String :=
  searchLoop svc possible_methods

/-- Per-query tier escalation (lines 230-238): the primary result is the
value of `smart_project_search` (`none` models Python `None` or an absent
search service); the fallback tier runs if and only if the primary result
is falsy or shorter than the sufficiency threshold.  The Boolean records
whether `fallback_search_ddg` was invoked. -/
def acquireQuery : Option String → String → String × Bool
  | none, ddg => (ddg, true)
  | some p, ddg => if p.length < sufficiencyThreshold then (ddg, true) else (p, false)

/-- Python `str.replace(pat, rep)` on character lists: repeatedly scan left
to right, replacing each non-overlapping occurrence of `pat`.  The fuel
argument (always instantiated with the length of the scanned list, which
bounds the number of scanning steps) makes the recursion structural. -/
def pyReplaceGo (pat rep : List Char) : Nat → List Char → List Char
  | _, [] => []
  | 0, s => s
  | n + 1, c :: rest =>
      if pat ≠ [] ∧ pat.isPrefixOf (c :: rest) then
        rep ++ pyReplaceGo pat rep n ((c :: rest).drop pat.length)
      else
        c :: pyReplaceGo pat rep n rest

/-- Python `s.replace(pat, rep)` for a non-empty pattern (line 302 uses the
patterns three-backticks-html and three-backticks). -/
def pyReplace (pat rep s : String) : String :=
  String.mk (pyReplaceGo pat.data rep.data s.data.length s.data)

/-- Python `str.strip()`: drop leading and trailing whitespace. -/
def pyStrip (l : List Char) : List Char :=
  (((l.dropWhile Char.isWhitespace).reverse.dropWhile Char.isWhitespace)).reverse

/-- The opening fence marker removed first (line 302). -/
def fenceHtml : String := "```html"

/-- The bare fence marker removed second (line 302). -/
def fence : String := "```"

/-- Line 302: `html_content.replace("```html", "").replace("```", "").strip()`. -/
def cleanGenerated (s : String) : String :=
  String.mk (pyStrip (pyReplace fence "" (pyReplace fenceHtml "" s)).data)

/-- The fixed query list (lines 220-225). -/
def queries : List String :=
  ["过去24小时 中国股市 A股 港股 重大财经新闻 利好利空",
   "latest Chinese stock market rumors and insider news last 24 hours",
   "A股 市场小作文 传闻 24小时内 热门",
   "新浪财经 东方财富 财联社 头条新闻 24小时"]

/-- The chunk appended to `raw_context` for one query with a truthy result
(line 241): `f"\nQuery: {q}\nResults:\n{res_text[:3000]}\n"`. -/
def queryContribution (q res : String) : String :=
  "\nQuery: " ++ q ++ "\nResults:\n" ++ pyTruncate res queryTruncBudget ++ "\n"

/-- Provider-facing behaviour of one run: whether the analyzer and search
service were constructed, the outcome of `smart_project_search` and of
`fallback_search_ddg` for each query, the generation methods present on the
analyzer and their outcomes (`none` models a raised exception), whether the
mail call reports success, and the formatted current date. -/
structure Env where
  analyzerInit : Bool
  serviceInit : Bool
  search : String → Option String
  ddg : String → String
  hasChat : Bool
  chat : String → Option String
  hasAnalyze : Bool
  analyze1 : String → Option String
  analyze2 : String → Option String
  emailOk : Bool
  date : String

/-- Value of `res_text` after the primary tier for one query (lines
230-234): the search service is consulted only when it was constructed. -/
def primaryResult (env : Env) (q : String) : Option String :=
  if env.serviceInit then env.search q else none

/-- `raw_context` after the query loop (lines 227-241). -/
def rawContextOf (env : Env) : String :=
  queries.foldl
    (fun acc q =>
      if (acquireQuery (primaryResult env q) (env.ddg q)).1 ≠ "" then
        acc ++ queryContribution q (acquireQuery (primaryResult env q) (env.ddg q)).1
      else acc)
    ""

/-- Number of tier invocations made during acquisition: one per query for
the project search service when constructed, plus one per query for the
DuckDuckGo fallback when it is invoked. -/
def searchCallsOf (env : Env) : Nat :=
  queries.foldl
    (fun n q =>
      n + (if env.serviceInit then 1 else 0)
        + (if (acquireQuery (primaryResult env q) (env.ddg q)).2 then 1 else 0))
    0

def promptSeg1 : String :=
  "\n    You are an expert financial analyst using the Gemini 3 model capabilities. \n    Analyze the raw search data below to create a \"Daily Stock Analysis - Morning Brief\" for "

def promptSeg2 : String := ".\n\n    SOURCE DATA:\n    "

def promptSeg3 : String :=
  "\n\n    INSTRUCTIONS:\n    1. **Format**: Output PURE HTML code. \"Swiss Style\" design (Minimalist, Grid, Sans-serif).\n       - NO Markdown code blocks.\n       - Include internal CSS.\n    \n    2. **Content Extraction (Gemini Reasoning)**:\n       - **Section 1: 🏛️ 权威要闻 (Market Facts)**\n         - Filter for the 20 MOST IMPACTFUL news items from reliable sources (Gov, Sina, Reuters).\n         - Focus on policy changes, earnings, and major market moves.\n         - NO speculation.\n       - **Section 2: 🗣️ 市场传闻 (Market Rumors)**\n         - Filter for the 20 HOTTEST market rumors (\"Little Compositions\", unverified buzz) currently driving sentiment.\n         - Rank by heat/controversy.\n    \n    3. **Writing Style**:\n       - NO TITLES. One sentence summary per item.\n       - Language: Chinese (Simplified).\n       - Numbered lists (1-20).\n\n    4. **Structure**:\n       - Header: \""

def promptSeg4 : String :=
  " 市场晨报 (Powered by Gemini 3)\"\n       - Section 1 (Facts)\n       - Section 2 (Rumors)\n       - Footer: \"Generated by Daily Stock Analysis AI\"\n\n    Generate the HTML now.\n    "

/-- The f-string prompt (lines 253-286): fixed template with the date
substituted twice and the combined corpus once. -/
def buildPrompt (date raw : String) : String :=
  promptSeg1 ++ date ++ promptSeg2 ++ raw ++ promptSeg3 ++ date ++ promptSeg4

/-- Upper bound on the length of the combined corpus: each of the four fixed
queries contributes at most its header and separator characters plus the
truncation budget. -/
def rawCap : Nat := queries.foldl (fun a q => a + 19 + q.length + queryTruncBudget) 0

/-- Upper bound on the length of the final prompt for a 10-character date. -/
def promptCap : Nat :=
  promptSeg1.length + promptSeg2.length + promptSeg3.length + promptSeg4.length + 20 + rawCap

/-- The generation block (lines 292-296): `chat(prompt)` when present, else
`analyze(prompt)` retried as `analyze("000001", prompt)`, else no call at
all and `html_content` keeps its initial empty value.  A raised exception
becomes `Except.error`. -/
def genResult (env : Env) (prompt : String) : Except String String :=
  if env.hasChat then
    match env.chat prompt with
    | some s => Except.ok s
    | none => Except.error "chat raised"
  else if env.hasAnalyze then
    match env.analyze1 prompt with
    | some s => Except.ok s
    | none =>
        match env.analyze2 prompt with
        | some s => Except.ok s
        | none => Except.error "analyze raised"
  else Except.ok ""

/-- Number of generation calls made by the generation block. -/
def genCallsOf (env : Env) : Nat :=
  if env.hasChat then 1
  else if env.hasAnalyze then
    match env.analyze1 (buildPrompt env.date (rawContextOf env)) with
    | some _ => 1
    | none => 2
  else 0

/-- Observable outcome of `generate_morning_brief` plus the surrounding
`__main__` handler: the process exit status, how many generation calls were
made, whether the delivery call `send_email_standalone` was made and with
which body, and how many search-tier invocations happened. -/
structure RunOutcome where
  exitCode : Nat
  genCalls : Nat
  deliveryCalled : Bool
  delivered : Option String
  searchCalls : Nat

/-- `generate_morning_brief` under the `__main__` wrapper (lines 192-320).
Every path ends in `sys.exit(0)` or a caught-and-logged exception followed
by `sys.exit(0)`:
analyzer construction failure exits early (line 217); a combined corpus
below the hard minimum exits early (line 247); a generation exception is
caught by the outer handler with no delivery (lines 310-312); an empty
generation result exits with no delivery (line 300); otherwise the cleaned
text is handed to the delivery call (lines 302-308). -/
def runBrief (env : Env) : RunOutcome :=
  if env.analyzerInit = false then
    { exitCode := 0, genCalls := 0, deliveryCalled := false, delivered := none, searchCalls := 0 }
  else if (rawContextOf env).length < hardMinimum then
    { exitCode := 0, genCalls := 0, deliveryCalled := false, delivered := none,
      searchCalls := searchCallsOf env }
  else
    match genResult env (buildPrompt env.date (rawContextOf env)) with
    | Except.error _ =>
        { exitCode := 0, genCalls := genCallsOf env, deliveryCalled := false,
          delivered := none, searchCalls := searchCallsOf env }
    | Except.ok html =>
        if html = "" then
          { exitCode := 0, genCalls := genCallsOf env, deliveryCalled := false,
            delivered := none, searchCalls := searchCallsOf env }
        else
          { exitCode := 0, genCalls := genCallsOf env, deliveryCalled := true,
            delivered := some (cleanGenerated html), searchCalls := searchCallsOf env }

/-- Exit status and provider-call count of the whole process.  `importOk`
models whether the unguarded module-level imports (e.g. line 14) succeed;
an unhandled import-time exception terminates the interpreter with a
non-zero status before the pipeline body, hence before any provider call. -/
structure ProcOutcome where
  exitCode : Nat
  providerCalls : Nat

/-- The process as a whole: import phase, then `generate_morning_brief`
under the `__main__` handler that catches every `Exception` and calls
`sys.exit(0)` (lines 314-320). -/
def runProcess (importOk : Bool) (env : Env) : ProcOutcome :=
  if importOk then
    { exitCode := (runBrief env).exitCode, providerCalls := (runBrief env).searchCalls }
  else
    { exitCode := 1, providerCalls := 0 }

/-- The constructor attempts available when building a collaborator:
the adapter-wrapped config (a plain mapping), the original config object,
or a call with no arguments. -/
inductive CtorAttempt where
  | withAdapter
  | withOrig
  | noArgs
deriving DecidableEq

/-- Collaborator construction as written (lines 203-213): try
`Constructor(wrapped_cfg)`, and on any exception try `Constructor(cfg)`;
a second exception leaves the collaborator unset (`None`).  The behaviour
argument maps each attempt shape to `some` instance or `none` for a raised
exception.  No zero-argument attempt appears in the code. -/
def probe_construct (ctor : CtorAttempt → Option Nat) : Option Nat :=
  match ctor .withAdapter with
  | some i => some i
  | none => ctor .withOrig

/-- Modelled from the spec (section 4.3): tries, in order,
`Constructor(config)`, `Constructor(configAsPlainMapping)`,
`Constructor()` with no arguments; the first attempt that does not raise
during construction wins. -/
def spec_construct (ctor : CtorAttempt → Option Nat) : Option Nat :=
  match ctor .withOrig with
  | some i => some i
  | none =>
      match ctor .withAdapter with
      | some i => some i
      | none => ctor .noArgs

/-- A constructor behaviour succeeding only with no arguments. -/
def ctorNoArgsOnly : CtorAttempt → Option Nat
  | .noArgs => some 7
  | _ => none

/-- A constructor behaviour succeeding on both config shapes, with
distinguishable instances. -/
def ctorBothShapes : CtorAttempt → Option Nat
  | .withAdapter => some 1
  | .withOrig => some 2
  | .noArgs => none

/-- The backtick character, written by code point to keep it out of the
source text. -/
def btk : Char := Char.ofNat 96

/-- Sample run in which every provider returns nothing and the analyzer was
not constructed. -/
def envEmpty : Env :=
  { analyzerInit := false, serviceInit := false, search := fun _ => none,
    ddg := fun _ => "", hasChat := false, chat := fun _ => none,
    hasAnalyze := false, analyze1 := fun _ => none, analyze2 := fun _ => none,
    emailOk := false, date := "2026-01-01" }

/-- Sample run with a productive DuckDuckGo tier but a chat method that
always raises. -/
def envChatFails : Env :=
  { envEmpty with
    analyzerInit := true,
    hasChat := true,
    ddg := fun _ => String.mk (List.replicate 60 'x') }

/-- A primary tier result long enough to meet the sufficiency threshold. -/
def longPrimary : String := String.mk (List.replicate 100 'y')

/-- A search service on which every present method raises. -/
def svcAllFail : String → Option MethodBehavior :=
  fun _ => some { first := CallRes.exc, second := CallRes.exc }

/-- A search service whose only method rejects the one-argument call with a
`TypeError` and succeeds on the retry carrying the limit hint. -/
def svcRetry : String → Option MethodBehavior :=
  fun m => if m = "search" then some { first := CallRes.tyErr, second := CallRes.ok true "hit" }
    else none

/-- Every control path of `generate_morning_brief` under the `__main__`
wrapper terminates with process status 0. -/
theorem runBrief_exitCode (env : Env) : (runBrief env).exitCode = 0 := by
  unfold runBrief
  split
  · rfl
  · split
    · rfl
    · split
      · rfl
      · split <;> rfl

/-- Claim C1, counterexample: the hard minimum on the combined corpus
(line 245) is the same constant, 100, as the per-query sufficiency
threshold (line 237); it is neither distinct from it nor larger than it. -/
theorem C1_counterexample :
    hardMinimum = sufficiencyThreshold ∧ ¬ sufficiencyThreshold < hardMinimum := by
  constructor
  · rfl
  · decide

/-- Claim C1 (amended): for every run whose combined corpus stays below the
hard minimum of 100 characters — a constant equal to each tier's per-query
sufficiency threshold, not larger than it — the pipeline terminates with
exit code 0, makes no generation call, makes no delivery call, and hands
over no output. -/
theorem C1_amended_no_output (env : Env)
    (h : (rawContextOf env).length < hardMinimum) :
    (runBrief env).exitCode = 0 ∧ (runBrief env).genCalls = 0 ∧
    (runBrief env).deliveryCalled = false ∧ (runBrief env).delivered = none := by
  by_cases ha : env.analyzerInit = false
  · simp [runBrief, ha]
  · simp [runBrief, ha, h]

/-- Witness for C1: in the all-empty run the corpus is below the hard
minimum and the pipeline exits 0 with no generation and no output. -/
theorem C1_witness :
    (runBrief envEmpty).exitCode = 0 ∧ (runBrief envEmpty).genCalls = 0 ∧
    (runBrief envEmpty).deliveryCalled = false ∧ (runBrief envEmpty).delivered = none :=
  C1_amended_no_output envEmpty (by decide)

/-- Claim C3: the DuckDuckGo fallback tier for a query is invoked exactly
when the primary tier contributed nothing (`None` or a falsy string) or
less than the sufficiency threshold; and a primary contribution meeting the
threshold is returned as is, with no fallback invocation. -/
theorem C3_fallback_iff (primary : Option String) (ddg : String) :
    ((acquireQuery primary ddg).2 = true ↔
      ∀ p, primary = some p → p.length < sufficiencyThreshold) ∧
    (∀ p, primary = some p → sufficiencyThreshold ≤ p.length →
      acquireQuery primary ddg = (p, false)) := by
  constructor
  · cases primary with
    | none => simp [acquireQuery]
    | some p =>
        by_cases h : p.length < sufficiencyThreshold <;>
          simp [acquireQuery, h]
  · intro p hp hlen
    cases hp
    simp [acquireQuery, Nat.not_lt.mpr hlen]

/-- Witness for C3: a short primary result triggers the fallback and a
100-character primary result is kept with the fallback skipped. -/
theorem C3_witness :
    (acquireQuery (some "short") "ddg").2 = true ∧
    acquireQuery (some longPrimary) "ddg" = (longPrimary, false) :=
  ⟨(C3_fallback_iff (some "short") "ddg").1.mpr (fun p hp => by cases hp; decide),
   (C3_fallback_iff (some longPrimary) "ddg").2 longPrimary rfl (by decide)⟩

/-- Claim C7, counterexample: the code never makes a zero-argument
construction attempt (a constructor succeeding only with no arguments
yields no collaborator, where the claimed order would yield one), and when
both config shapes succeed the code returns the adapter-built instance
while the claimed order returns the one built from the original config
object. -/
theorem C7_counterexample :
    probe_construct ctorNoArgsOnly = none ∧ spec_construct ctorNoArgsOnly = some 7 ∧
    probe_construct ctorBothShapes = some 1 ∧ spec_construct ctorBothShapes = some 2 :=
  ⟨rfl, rfl, rfl, rfl⟩

/-- Claim C7 (amended): the capability probe tries, in order, the
constructor applied to the adapter-wrapped config (a plain mapping), then
the constructor applied to the original config object; the first attempt
that does not raise wins, and no zero-argument attempt is ever made (the
probe is insensitive to the behaviour of a zero-argument call). -/
theorem C7_amended_probe_order (ctor ctor2 : CtorAttempt → Option Nat) :
    (∀ i, ctor CtorAttempt.withAdapter = some i → probe_construct ctor = some i) ∧
    (ctor CtorAttempt.withAdapter = none →
      probe_construct ctor = ctor CtorAttempt.withOrig) ∧
    ((∀ a, a ≠ CtorAttempt.noArgs → ctor a = ctor2 a) →
      probe_construct ctor = probe_construct ctor2) := by
  refine ⟨?_, ?_, ?_⟩
  · intro i h
    simp [probe_construct, h]
  · intro h
    simp [probe_construct, h]
  · intro h
    unfold probe_construct
    rw [h CtorAttempt.withAdapter (by decide), h CtorAttempt.withOrig (by decide)]

/-- Witness for C7: the adapter-first order on a constructor accepting both
shapes, and the fall-through to the original config object. -/
theorem C7_witness :
    probe_construct ctorBothShapes = some 1 ∧
    probe_construct ctorNoArgsOnly = ctorNoArgsOnly CtorAttempt.withOrig :=
  ⟨(C7_amended_probe_order ctorBothShapes ctorBothShapes).1 1 rfl,
   (C7_amended_probe_order ctorNoArgsOnly ctorNoArgsOnly).2.1 rfl⟩

/-- Claim C9: the process exit status is 0 exactly when the module imports
succeed — every post-import path, including the insufficient-data no-op
case and every caught failure, exits 0 — and a non-zero exit can only come
from an import-time (programming/configuration) error, which happens
before any provider call is made. -/
theorem C9_exit_codes (importOk : Bool) (env : Env) :
    ((runProcess importOk env).exitCode = 0 ↔ importOk = true) ∧
    ((runProcess importOk env).exitCode ≠ 0 →
      importOk = false ∧ (runProcess importOk env).providerCalls = 0) := by
  cases importOk with
  | false => simp [runProcess]
  | true => simp [runProcess, runBrief_exitCode]

/-- Witness for C9: a successful import exits 0, and the import-failure
process makes zero provider calls. -/
theorem C9_witness :
    (runProcess true envEmpty).exitCode = 0 ∧
    (runProcess false envEmpty).providerCalls = 0 :=
  ⟨(C9_exit_codes true envEmpty).1.mpr rfl,
   ((C9_exit_codes false envEmpty).2 (by decide)).2⟩

/-- Claim C2: normalization is total (a shallow embedding of "never
raises") and for every provider shape yields a well-defined body that is
embedded in the serialized output: a mapping takes `title`/`body` with
`snippet` as fallback for an absent `body`, a bare string is its own body,
and any other shape contributes its stringification. -/
theorem C2_normalize_total (item : RawItem) :
    (itemBody item).data <:+: (normalizeItem item).data ∧
    (∀ f, item = RawItem.record f →
      itemBody item = dictGet f "body" (dictGet f "snippet" "") ∧
      itemTitle item = dictGet f "title" "No Title") ∧
    (∀ s, item = RawItem.str s →
      itemBody item = s ∧ normalizeItem item = s ++ "\n---\n") ∧
    (∀ s, item = RawItem.other s →
      itemBody item = s ∧ normalizeItem item = s ++ "\n---\n") := by
  refine ⟨?_, ?_, ?_, ?_⟩
  · cases item with
    | record f =>
        refine ⟨("Source: " ++ dictGet f "title" "No Title" ++ "\nContent: ").data,
          ("\n---\n" : String).data, ?_⟩
        simp [itemBody, normalizeItem, String.data_append]
    | str s => exact ⟨[], ("\n---\n" : String).data, by simp [itemBody, normalizeItem]⟩
    | other s => exact ⟨[], ("\n---\n" : String).data, by simp [itemBody, normalizeItem]⟩
  · intro f hf; cases hf; exact ⟨rfl, rfl⟩
  · intro s hs; cases hs; exact ⟨rfl, rfl⟩
  · intro s hs; cases hs; exact ⟨rfl, rfl⟩

/-- Witness for C2: a mapping without a `body` field falls back to its
`snippet`, and a bare string becomes its own body chunk. -/
theorem C2_witness :
    itemBody (RawItem.record [("title", "t"), ("snippet", "sn")]) = "sn" ∧
    normalizeItem (RawItem.str "plain") = "plain" ++ "\n---\n" := by
  constructor
  · have h := (C2_normalize_total (RawItem.record [("title", "t"), ("snippet", "sn")])).2.1
      [("title", "t"), ("snippet", "sn")] rfl
    rw [h.1]; rfl
  · exact ((C2_normalize_total (RawItem.str "plain")).2.2.1 "plain" rfl).2

/-- Claim C4: when every present method of the project search service
fails, the primary tier yields `None`; an exception in the DuckDuckGo tier
yields the empty contribution; and acquisition then simply returns the
fallback output (possibly empty) — every failure is absorbed, none is
propagated (totality of the embedded functions models "never raises"). -/
theorem C4_failures_zero_contribution (svc : String → Option MethodBehavior)
    (hfail : ∀ name beh, svc name = some beh → (tryMethod beh).1 = none) :
    smart_project_search svc = none ∧
    fallback_search_ddg DdgOutcome.failure = "" ∧
    (∀ d, acquireQuery (smart_project_search svc) (fallback_search_ddg d) =
      (fallback_search_ddg d, true)) := by
  have hloop : ∀ l, searchLoop svc l = none := by
    intro l
    induction l with
    | nil => rfl
    | cons m rest ih =>
        unfold searchLoop
        cases h : svc m with
        | none => exact ih
        | some beh => simp [hfail m beh h, ih]
  refine ⟨hloop possible_methods, rfl, ?_⟩
  intro d
  rw [show smart_project_search svc = none from hloop possible_methods]
  rfl

/-- Witness for C4: a service on which every method raises contributes
nothing, and the query then returns the (empty) fallback contribution. -/
theorem C4_witness :
    smart_project_search svcAllFail = none ∧
    acquireQuery (smart_project_search svcAllFail) (fallback_search_ddg DdgOutcome.failure) =
      (fallback_search_ddg DdgOutcome.failure, true) := by
  have h := C4_failures_zero_contribution svcAllFail
    (fun name beh h => by cases h; rfl)
  exact ⟨h.1, h.2.2 DdgOutcome.failure⟩

/-- Claim C8: the method probe tries the ranked candidate names in order
and returns the first truthy, non-failing result (it computes exactly
`findSome?` of the per-candidate outcome over the ranked list); for each
candidate the plain call is made first and the retry carrying the extra
limit hint is made exactly when the plain call raises `TypeError`; a
returned value wins exactly when it is truthy. -/
theorem C8_invoke_best_method (svc : String → Option MethodBehavior) :
    smart_project_search svc =
      possible_methods.findSome? (fun m => (svc m).bind fun beh => (tryMethod beh).1) ∧
    (∀ beh : MethodBehavior, (tryMethod beh).2 = [false, true] ↔ beh.first = CallRes.tyErr) ∧
    (∀ (beh : MethodBehavior) (t : Bool) (s : String), beh.first = CallRes.ok t s →
      (tryMethod beh).1 = if t then some s else none) := by
  refine ⟨?_, ?_, ?_⟩
  · have hloop : ∀ l, searchLoop svc l =
        l.findSome? (fun m => (svc m).bind fun beh => (tryMethod beh).1) := by
      intro l
      induction l with
      | nil => rfl
      | cons m rest ih =>
          unfold searchLoop
          rw [List.findSome?_cons]
          cases h : svc m with
          | none => simpa using ih
          | some beh =>
              cases hr : (tryMethod beh).1 with
              | none => simpa [hr] using ih
              | some s => simp [hr]
    exact hloop possible_methods
  · intro beh
    obtain ⟨f1, f2⟩ := beh
    cases f1 <;> cases f2 <;> simp [tryMethod]
  · intro beh t s hf
    simp [tryMethod, hf]

/-- Witness for C8: on a service whose only method rejects the plain call
with a `TypeError` and succeeds with the limit hint, the probe returns that
result, and the call trace of such a method is plain-then-hinted. -/
theorem C8_witness :
    smart_project_search svcRetry = some "hit" ∧
    (tryMethod { first := CallRes.tyErr, second := CallRes.ok true "hit" }).2 =
      [false, true] := by
  constructor
  · rw [(C8_invoke_best_method svcRetry).1]; rfl
  · exact ((C8_invoke_best_method svcRetry).2.1
      { first := CallRes.tyErr, second := CallRes.ok true "hit" }).mpr rfl

theorem pyTruncate_length_le (s : String) (n : Nat) : (pyTruncate s n).length ≤ n := by
  simp [pyTruncate, List.length_take]

theorem queryContribution_length_le (q res : String) :
    (queryContribution q res).length ≤ 19 + q.length + queryTruncBudget := by
  have h := pyTruncate_length_le res queryTruncBudget
  have h1 : ("\nQuery: " : String).length = 8 := rfl
  have h2 : ("\nResults:\n" : String).length = 10 := rfl
  have h3 : ("\n" : String).length = 1 := rfl
  simp only [queryContribution, String.length_append, h1, h2, h3]
  omega

theorem rawLoop_length_le (env : Env) :
    ∀ (l : List String) (acc : String) (n : Nat), acc.length ≤ n →
    (l.foldl (fun acc q =>
        if (acquireQuery (primaryResult env q) (env.ddg q)).1 ≠ "" then
          acc ++ queryContribution q (acquireQuery (primaryResult env q) (env.ddg q)).1
        else acc) acc).length
      ≤ l.foldl (fun a q => a + 19 + q.length + queryTruncBudget) n := by
  intro l
  induction l with
  | nil => intro acc n h; simpa using h
  | cons q rest ih =>
      intro acc n h
      simp only [List.foldl_cons]
      apply ih
      split
      · rw [String.length_append]
        have := queryContribution_length_le q
          (acquireQuery (primaryResult env q) (env.ddg q)).1
        omega
      · omega

theorem rawContextOf_length_le (env : Env) : (rawContextOf env).length ≤ rawCap :=
  rawLoop_length_le env queries "" 0 (by simp)

/-- Claim C6: each query contribution to the combined corpus is capped (its
text is truncated to the 3000-character budget before concatenation), and
consequently the final prompt handed to the generation stage is bounded by
the fixed cap `promptCap` for every possible provider output. -/
theorem C6_prompt_bounded (env : Env) (hd : env.date.length = 10) :
    (∀ q res, (queryContribution q res).length ≤ 19 + q.length + queryTruncBudget) ∧
    (buildPrompt env.date (rawContextOf env)).length ≤ promptCap := by
  refine ⟨fun q res => queryContribution_length_le q res, ?_⟩
  have hraw := rawContextOf_length_le env
  simp only [buildPrompt, String.length_append, hd, promptCap]
  omega

/-- Witness for C6: the bound instantiated on the all-empty run with a
10-character date. -/
theorem C6_witness :
    (buildPrompt envEmpty.date (rawContextOf envEmpty)).length ≤ promptCap :=
  (C6_prompt_bounded envEmpty rfl).2

/-- Claim C5: if the generation stage is reached and every generation
attempt fails, a single error is surfaced (the `Except.error` of the
embedded generation stage), no delivery call is made, and the process still
exits with code 0. -/
theorem C5_generation_exhausted_exit0 (env : Env)
    (h1 : env.analyzerInit = true)
    (h2 : ¬ (rawContextOf env).length < hardMinimum)
    (h3 : ∀ s, genResult env (buildPrompt env.date (rawContextOf env)) ≠ Except.ok s) :
    (∃ e, genResult env (buildPrompt env.date (rawContextOf env)) = Except.error e) ∧
    (runBrief env).deliveryCalled = false ∧
    (runBrief env).delivered = none ∧
    (runBrief env).exitCode = 0 ∧
    1 ≤ (runBrief env).genCalls := by
  have ha : ¬ env.analyzerInit = false := by simp [h1]
  cases hg : genResult env (buildPrompt env.date (rawContextOf env)) with
  | ok s => exact absurd hg (h3 s)
  | error e =>
      have hcalls : 1 ≤ genCallsOf env := by
        unfold genCallsOf
        by_cases hc : env.hasChat
        · simp [hc]
        · by_cases hA : env.hasAnalyze
          · simp only [hc, hA, if_false, if_true]
            cases env.analyze1 (buildPrompt env.date (rawContextOf env)) <;> simp
          · exfalso
            apply h3 ""
            simp [genResult, hc, hA]
      refine ⟨⟨e, rfl⟩, ?_⟩
      simp [runBrief, ha, h2, hg, hcalls]

set_option maxRecDepth 8000 in
/-- Witness for C5: the run with a productive DuckDuckGo tier and a chat
method that always raises makes no delivery and exits 0. -/
theorem C5_witness :
    (runBrief envChatFails).deliveryCalled = false ∧
    (runBrief envChatFails).exitCode = 0 := by
  have h := C5_generation_exhausted_exit0 envChatFails rfl (by decide)
    (fun s hs => by simp [genResult, envChatFails, envEmpty] at hs)
  exact ⟨h.2.1, h.2.2.2.1⟩

theorem fence_data : fence.data = [btk, btk, btk] := by decide

/-- If the scan output starts with a backtick, so does the scanned input. -/
theorem replaceGo_head (n : Nat) (s : List Char)
    (h : (pyReplaceGo fence.data [] n s).head? = some btk) : s.head? = some btk := by
  match n, s with
  | _, [] => simp [pyReplaceGo] at h
  | 0, c :: rest => simpa [pyReplaceGo] using h
  | n + 1, c :: rest =>
      rw [pyReplaceGo] at h
      split at h
      · rename_i hc
        have hpre : fence.data <+: c :: rest := List.isPrefixOf_iff_prefix.mp hc.2
        rw [fence_data] at hpre
        rcases hpre with ⟨t, ht⟩
        cases ht
        rfl
      · simpa using h

/-- If the scan output starts with two backticks, so does the scanned
input. -/
theorem replaceGo_two (n : Nat) (s : List Char)
    (h : [btk, btk] <+: pyReplaceGo fence.data [] n s) : [btk, btk] <+: s := by
  match n, s with
  | _, [] => simp [pyReplaceGo] at h
  | 0, c :: rest => simpa [pyReplaceGo] using h
  | n + 1, c :: rest =>
      rw [pyReplaceGo] at h
      split at h
      · rename_i hc
        have hpre : fence.data <+: c :: rest := List.isPrefixOf_iff_prefix.mp hc.2
        rw [fence_data] at hpre
        rcases hpre with ⟨t, ht⟩
        cases ht
        exact ⟨btk :: t, rfl⟩
      · rcases h with ⟨t, ht⟩
        rw [List.cons_append, List.cons_append, List.nil_append] at ht
        injection ht with hcb ht2
        have hh : (pyReplaceGo fence.data [] n rest).head? = some btk := by
          rw [← ht2]; rfl
        have hr := replaceGo_head n rest hh
        cases rest with
        | nil => simp at hr
        | cons r rs =>
            simp only [List.head?_cons, Option.some.injEq] at hr
            refine ⟨rs, ?_⟩
            rw [← hcb, ← hr]
            rfl

/-- The left-to-right removal of the fence pattern leaves no occurrence of
the pattern, provided the fuel covers the scanned list. -/
theorem replaceGo_no_fence (n : Nat) :
    ∀ s : List Char, s.length ≤ n →
    ¬ (fence.data <:+: pyReplaceGo fence.data [] n s) := by
  induction n with
  | zero =>
      intro s hs
      have h0 : s = [] := List.length_eq_zero.mp (Nat.le_zero.mp hs)
      subst h0
      simp [pyReplaceGo, fence_data]
  | succ n ih =>
      intro s hs
      match s with
      | [] => simp [pyReplaceGo, fence_data]
      | c :: rest =>
          rw [pyReplaceGo]
          split
          · rename_i hc
            have hpre : fence.data <+: c :: rest := List.isPrefixOf_iff_prefix.mp hc.2
            rcases hpre with ⟨t, ht⟩
            have hdrop : (c :: rest).drop fence.data.length = t := by
              rw [← ht, List.drop_left]
            rw [hdrop, List.nil_append]
            have hlent : t.length ≤ n := by
              have hlist : (c :: rest).length = fence.data.length + t.length := by
                rw [← ht, List.length_append]
              rw [fence_data] at hlist
              simp only [List.length_cons] at hs hlist
              simp only [List.length_cons, List.length_nil] at hlist
              omega
            exact ih t hlent
          · rename_i hc
            intro hinf
            rcases List.infix_cons_iff.mp hinf with hpre | hinf2
            · rw [fence_data] at hpre
              rcases hpre with ⟨t, ht⟩
              rw [List.cons_append, List.cons_append, List.cons_append,
                List.nil_append] at ht
              injection ht with hcb ht2
              have htwo := replaceGo_two n rest ⟨t, ht2⟩
              rcases htwo with ⟨u, hu⟩
              apply hc
              constructor
              · rw [fence_data]; simp
              · rw [List.isPrefixOf_iff_prefix, fence_data, ← hcb, ← hu]
                exact ⟨u, rfl⟩
            · exact ih rest (by simp only [List.length_cons] at hs; omega) hinf2

/-- The output of `pyStrip` is a contiguous part of its input. -/
theorem pyStrip_within (l : List Char) : pyStrip l <:+: l := by
  unfold pyStrip
  have h1 : l.dropWhile Char.isWhitespace <:+ l := List.dropWhile_suffix _
  have h2 : (l.dropWhile Char.isWhitespace).reverse.dropWhile Char.isWhitespace
      <:+ (l.dropWhile Char.isWhitespace).reverse := List.dropWhile_suffix _
  have h3 : ((l.dropWhile Char.isWhitespace).reverse.dropWhile Char.isWhitespace).reverse
      <+: l.dropWhile Char.isWhitespace := by
    simpa using List.reverse_prefix.mpr h2
  exact h3.isInfix.trans h1.isInfix

theorem pyStrip_head (l : List Char) (c : Char)
    (h : (pyStrip l).head? = some c) : c.isWhitespace = false := by
  have h2 : (l.dropWhile Char.isWhitespace).reverse.dropWhile Char.isWhitespace
      <:+ (l.dropWhile Char.isWhitespace).reverse := List.dropWhile_suffix _
  have h3 : ((l.dropWhile Char.isWhitespace).reverse.dropWhile Char.isWhitespace).reverse
      <+: l.dropWhile Char.isWhitespace := by
    simpa using List.reverse_prefix.mpr h2
  rcases h3 with ⟨t, ht⟩
  have hA : (l.dropWhile Char.isWhitespace).head? = some c := by
    rw [← ht]
    unfold pyStrip at h
    cases hcase : ((l.dropWhile Char.isWhitespace).reverse.dropWhile Char.isWhitespace).reverse
      with
    | nil => rw [hcase] at h; simp at h
    | cons x xs =>
        rw [hcase] at h
        simp only [List.head?_cons, Option.some.injEq] at h
        rw [List.cons_append, List.head?_cons, h]
  have := List.head?_dropWhile_not Char.isWhitespace l
  rw [hA] at this
  exact this

theorem pyStrip_last (l : List Char) (c : Char)
    (h : (pyStrip l).getLast? = some c) : c.isWhitespace = false := by
  unfold pyStrip at h
  rw [List.getLast?_reverse] at h
  have := List.head?_dropWhile_not Char.isWhitespace (l.dropWhile Char.isWhitespace).reverse
  rw [h] at this
  exact this

/-- Claim C10: post-processing removes every code-fence marker — the
cleaned text contains no occurrence of three consecutive backticks anywhere
(hence neither bare fences nor the html-tagged fence, wherever they sat in
the generated text) — and carries no leading or trailing whitespace. -/
theorem C10_no_fence_markers (s : String) :
    ¬ (fence.data <:+: (cleanGenerated s).data) ∧
    (∀ c, (cleanGenerated s).data.head? = some c → c.isWhitespace = false) ∧
    (∀ c, (cleanGenerated s).data.getLast? = some c → c.isWhitespace = false) := by
  have hdata : (cleanGenerated s).data
      = pyStrip (pyReplace fence "" (pyReplace fenceHtml "" s)).data := rfl
  refine ⟨?_, ?_, ?_⟩
  · intro hinf
    rw [hdata] at hinf
    have hmid := (pyStrip_within (pyReplace fence "" (pyReplace fenceHtml "" s)).data)
    have hfence := hinf.trans hmid
    exact replaceGo_no_fence ((pyReplace fenceHtml "" s).data.length)
      (pyReplace fenceHtml "" s).data (Nat.le_refl _) hfence
  · intro c h
    rw [hdata] at h
    exact pyStrip_head _ c h
  · intro c h
    rw [hdata] at h
    exact pyStrip_last _ c h

/-- Witness for C10: a generated text with an html-tagged opening fence, a
bare closing fence and trailing whitespace is cleaned to a fence-free,
stripped body. -/
theorem C10_witness :
    (¬ (fence.data <:+: (cleanGenerated "```html<p>ok</p>``` ").data)) ∧
    Char.isWhitespace '<' = false ∧ Char.isWhitespace '>' = false :=
  ⟨(C10_no_fence_markers "```html<p>ok</p>``` ").1,
   (C10_no_fence_markers "```html<p>ok</p>``` ").2.1 '<' rfl,
   (C10_no_fence_markers "```html<p>ok</p>``` ").2.2 '>' rfl⟩

end NewsDigest
